import Mathlib

/-!
Verification of the VitaFin personal-finance application (TypeScript/React,
backed by a hosted row store) against its natural-language specification.

The relevant application logic is shallowly embedded below:

* JavaScript numbers are modelled as rationals (`ℚ`).  The sources never hit
  `NaN`/`Infinity` on the verified paths (divisors are clamped away from 0);
  `Math.ceil`/`Math.floor` become `jsCeil`/`jsFloor`, and `Math.round`
  becomes `jsRound` (round half towards positive infinity, as in JS).
* The JS `||` operator on numbers (used by the sources as a 0/null fallback)
  is `jsOrQ`.
* Calendar dates (`yyyy-mm-dd` strings and `Date` objects at midnight) are
  modelled structurally as `Date` records with 1-based months.  String
  comparison of ISO dates is lexicographic comparison of the fields
  (`Date.lexLE`); `Date`-object comparison (timestamps) is comparison of
  epoch-day numbers (`Date.toDays`, the standard civil-from-days algorithm
  in reverse); both agree on well-formed dates.  `startsWith(thisMonthKey)`
  on an ISO string becomes equality of the year and month fields.
* Backend (supabase) tables are Lean lists; a successful `update`/`insert`
  round-trip is the corresponding pure list transformation.

Theorems are grouped by the specification claim (C1 to C10) they settle;
each claim theorem names its claim in the doc comment.
-/

/-! ## Shallow embedding of the application code -/

/-- JS `Math.floor` on a rational. -/
def jsFloor (q : ℚ) : ℤ := ⌊q⌋

/-- JS `Math.ceil` on a rational. -/
def jsCeil (q : ℚ) : ℤ := ⌈q⌉

/-- JS `Math.round`: round half towards positive infinity. -/
def jsRound (q : ℚ) : ℤ := ⌊q + 1 / 2⌋

/-- JS `Math.max` on numbers (kernel-reducible, unlike `max` on `ℚ`). -/
def jsMax (a b : ℚ) : ℚ := if a ≤ b then b else a

/-- JS `Math.min` on numbers. -/
def jsMin (a b : ℚ) : ℚ := if a ≤ b then a else b

/-- JS `Math.max` on integer-valued operands. -/
def jsMaxZ (a b : ℤ) : ℤ := if a ≤ b then b else a

/-- JS `a || b` on numbers: `b` when `a` is falsy (`0`), else `a`. -/
def jsOrQ (a b : ℚ) : ℚ := if a = 0 then b else a

/-- JS `a || b` on strings: `b` when `a` is the empty string, else `a`. -/
def jsOrS (a b : String) : String := if a = "" then b else a

/-- Stable insertion of an element into a list sorted by `le`. -/
def insertBy {α : Type} (le : α → α → Bool) (x : α) : List α → List α
  | [] => [x]
  | y :: ys => if le x y then x :: y :: ys else y :: insertBy le x ys

/-- Stable ascending sort by `le` (structural insertion sort, so the kernel
can evaluate it): the model of JS `Array.prototype.sort`, which is stable. -/
def sortBy {α : Type} (le : α → α → Bool) : List α → List α
  | [] => []
  | x :: xs => insertBy le x (sortBy le xs)

/-- A calendar date (1-based month), the structural model of both the app's
`yyyy-mm-dd` strings and its JS `Date` objects at midnight. -/
structure Date where
  year : ℤ
  month : ℤ
  day : ℤ
deriving DecidableEq

/-- Lexicographic order on dates: the model of `localeCompare` ordering of
well-formed ISO `yyyy-mm-dd` strings. -/
def Date.lexLE (a b : Date) : Bool :=
  if a.year ≠ b.year then a.year < b.year
  else if a.month ≠ b.month then a.month < b.month
  else a.day ≤ b.day

/-- Days since the civil epoch 1970-01-01 (Gregorian, the `days_from_civil`
algorithm): the model of a JS `Date`'s timestamp divided by 86 400 000. -/
def Date.toDays (dt : Date) : ℤ :=
  let y := dt.year - (if dt.month ≤ 2 then 1 else 0)
  let era := Int.fdiv y 400
  let yoe := y - era * 400
  let mp := dt.month + (if 2 < dt.month then -3 else 9)
  let doy := Int.fdiv (153 * mp + 2) 5 + dt.day - 1
  let doe := yoe * 365 + Int.fdiv yoe 4 - Int.fdiv yoe 100 + doy
  era * 146097 + doe - 719468

/-- The date of a given epoch-day number (the `civil_from_days` algorithm):
the model of JS `Date` field normalisation. -/
def Date.ofDays (z0 : ℤ) : Date :=
  let z := z0 + 719468
  let era := Int.fdiv z 146097
  let doe := z - era * 146097
  let yoe :=
    Int.fdiv (doe - Int.fdiv doe 1460 + Int.fdiv doe 36524 - Int.fdiv doe 146096) 365
  let y := yoe + era * 400
  let doy := doe - (365 * yoe + Int.fdiv yoe 4 - Int.fdiv yoe 100)
  let mp := Int.fdiv (5 * doy + 2) 153
  let d := doy - Int.fdiv (153 * mp + 2) 5 + 1
  let m := mp + (if mp < 10 then 3 else -9)
  ⟨y + (if m ≤ 2 then 1 else 0), m, d⟩

/-- Timestamp order on JS `Date` objects. -/
def Date.tsLE (a b : Date) : Bool := a.toDays ≤ b.toDays

/-- Source `src/app/components/goals.tsx`, `monthsBetween`: whole months from `a` to
`b`, one fewer when the day of month has not yet been reached. -/
def monthsBetween (a b : Date) : ℤ :=
  (b.year - a.year) * 12 + (b.month - a.month) + (if a.day ≤ b.day then 0 else -1)

/-- Source `goals.tsx` `Goal` row (the fields the verified computations read). -/
structure Goal where
  id : String
  name : String
  target_amount : ℚ
  target_date : Date
  monthly_contribution : Option ℚ
  closed_at : Option Date
deriving DecidableEq

/-- Source `goals.tsx` `GoalContribution` row. -/
structure GoalContribution where
  goal_id : String
  amount : ℚ
  date : Date
deriving DecidableEq

/-- Source `goals.tsx` `savedFor`: the sum of a goal's contributions. -/
def savedFor (contribs : List GoalContribution) (goalId : String) : ℚ :=
  (contribs.filter fun c => c.goal_id == goalId).foldl
    (fun s c => s + jsOrQ c.amount 0) 0

/-- Source `goals.tsx` `monthlyAvgFor`: total of the goal's contributions divided by
the number of months spanned by the first and last contribution dates (the
declared `months = 3` parameter is unused by the source body). -/
def monthlyAvgFor (contribs : List GoalContribution) (goalId : String) : ℚ :=
  let l := sortBy (fun a b => a.date.lexLE b.date)
    (contribs.filter fun c => c.goal_id == goalId)
  match l with
  | [] => 0
  | c0 :: rest =>
    let first := c0.date
    let last := (rest.getLastD c0).date
    let m : ℤ := jsMaxZ 1 (monthsBetween first last + 1)
    let total := (c0 :: rest).foldl (fun s c => s + jsOrQ c.amount 0) 0
    total / (m : ℚ)

/-- Source `goals.tsx` `rebalanceGoalMonthly`: contributions of the goal dated in the
current month (`c.date.startsWith(thisMonthKey)`). -/
def thisMonthContrib (contribs : List GoalContribution) (goalId : String)
    (now : Date) : ℚ :=
  (contribs.filter fun c =>
      c.goal_id == goalId && c.date.year == now.year && c.date.month == now.month).foldl
    (fun s c => s + jsOrQ c.amount 0) 0

/-- Source `goals.tsx` `rebalanceGoalMonthly`: remaining amount, clamped at 0. -/
def remainingOf (g : Goal) (contribs : List GoalContribution) : ℚ :=
  jsMax 0 (g.target_amount - savedFor contribs g.id)

/-- Source `goals.tsx` `rebalanceGoalMonthly`: months left to the target date,
clamped at 1. -/
def monthsLeftOf (now : Date) (g : Goal) : ℤ :=
  jsMaxZ 1 (monthsBetween now g.target_date)

/-- Source `goals.tsx` `rebalanceGoalMonthly`: months left excluding the current
month (counted from the first day of the next month), clamped at 1. -/
def monthsLeftExclCurrentOf (now : Date) (g : Goal) : ℤ :=
  let nextMonthStart : Date := ⟨now.year, now.month + 1, 1⟩
  jsMaxZ 1 (monthsBetween nextMonthStart g.target_date + 1)

/-- Source `goals.tsx` `rebalanceGoalMonthly`: `Number(g.monthly_contribution || 0)`. -/
def plannedMonthlyOf (g : Goal) : ℚ :=
  jsOrQ (g.monthly_contribution.getD 0) 0

/-- Source `goals.tsx` `rebalanceGoalMonthly`: `Math.ceil(remaining / monthsLeft)`. -/
def suggestedOf (g : Goal) (contribs : List GoalContribution) (now : Date) : ℤ :=
  jsCeil (remainingOf g contribs / (monthsLeftOf now g : ℚ))

/-- Source `goals.tsx` `rebalanceGoalMonthly`:
`plannedMonthly || Math.round(avgMonthly) || suggested`. -/
def baselineMonthlyOf (g : Goal) (contribs : List GoalContribution)
    (now : Date) : ℚ :=
  jsOrQ (jsOrQ (plannedMonthlyOf g) ((jsRound (monthlyAvgFor contribs g.id) : ℤ) : ℚ))
    ((suggestedOf g contribs now : ℤ) : ℚ)

/-- Source `goals.tsx` `rebalanceGoalMonthly`: the adjustment spread over the months
after the current one (ceil for a shortfall, floor for an excess). -/
def rebalanceAdjOf (g : Goal) (contribs : List GoalContribution) (now : Date) : ℤ :=
  let delta := baselineMonthlyOf g contribs now - thisMonthContrib contribs g.id now
  if 0 < delta then jsCeil (delta / (monthsLeftExclCurrentOf now g : ℚ))
  else if delta < 0 then jsFloor (delta / (monthsLeftExclCurrentOf now g : ℚ))
  else 0

/-- Source `goals.tsx` `rebalanceGoalMonthly`: the new `monthly_contribution` value
persisted by the rebalance, `Math.max(0, baselineMonthly + rebalanceAdj)`. -/
def rebalanceNewMonthly (g : Goal) (contribs : List GoalContribution)
    (now : Date) : ℚ :=
  jsMax 0 (baselineMonthlyOf g contribs now + (rebalanceAdjOf g contribs now : ℚ))

/-- Source `goals.tsx` `rebalanceGoalMonthly`: the update persisted to the `goals`
table (and mirrored into component state). -/
def rebalanceGoalMonthly (goals : List Goal) (contribs : List GoalContribution)
    (g : Goal) (now : Date) : List Goal :=
  goals.map fun x =>
    if x.id == g.id then
      { x with monthly_contribution := some (rebalanceNewMonthly g contribs now) }
    else x

/-- Source `goals.tsx` `rows` (lines 209–231): the derived card row's `onTrack` flag,
recomputing the rebalanced next-monthly value inline exactly as the source
block does. -/
def rowOnTrack (g : Goal) (contribs : List GoalContribution) (now : Date) : Bool :=
  let saved := savedFor contribs g.id
  let remaining := jsMax 0 (g.target_amount - saved)
  let monthsLeft := jsMaxZ 1 (monthsBetween now g.target_date)
  let plannedMonthly := jsOrQ (g.monthly_contribution.getD 0) 0
  let avgMonthly := monthlyAvgFor contribs g.id
  let suggested : ℤ := jsCeil (remaining / (monthsLeft : ℚ))
  let baselineMonthly :=
    jsOrQ (jsOrQ plannedMonthly ((jsRound avgMonthly : ℤ) : ℚ)) ((suggested : ℤ) : ℚ)
  let contributedThisMonth := thisMonthContrib contribs g.id now
  let nextMonthStart : Date := ⟨now.year, now.month + 1, 1⟩
  let monthsLeftExclCurrent := jsMaxZ 1 (monthsBetween nextMonthStart g.target_date + 1)
  let delta := baselineMonthly - contributedThisMonth
  let rebalanceAdj : ℤ :=
    if 0 < delta then jsCeil (delta / (monthsLeftExclCurrent : ℚ))
    else if delta < 0 then jsFloor (delta / (monthsLeftExclCurrent : ℚ))
    else 0
  let rebalancedNextMonthly := jsMax 0 (baselineMonthly + (rebalanceAdj : ℚ))
  let projectedAtTarget := saved + rebalancedNextMonthly * (monthsLeftExclCurrent : ℚ)
  decide (g.target_amount ≤ projectedAtTarget)

/-- Phrasing of claim C4 as the specification states it ("on track" holds iff
the amount saved plus a projection of future months at the goal's historical
average contribution rate reaches the target): used to compare against the
source's `rowOnTrack`. -/
def specOnTrackHistoricalPace (g : Goal) (contribs : List GoalContribution)
    (now : Date) : Bool :=
  decide (g.target_amount ≤
    savedFor contribs g.id +
      monthlyAvgFor contribs g.id * (monthsLeftExclCurrentOf now g : ℚ))

/-- Concrete goal with no planned monthly contribution (claim C1 input). -/
def c1GoalA : Goal := ⟨"g1", "A", 1000, ⟨2026, 8, 1⟩, none, none⟩

/-- Concrete goal agreeing with `c1GoalA` on remaining amount, months left and
current-month contributions, but with a planned monthly contribution of 500
(claim C1 input). -/
def c1GoalB : Goal := ⟨"g2", "B", 1000, ⟨2026, 8, 1⟩, some 500, none⟩

/-- Current date used by the claim C1 scenario. -/
def c1Now : Date := ⟨2025, 10, 1⟩

/-- Goal used to instantiate the amended claim C1: same extended inputs as
`c1WitGoalB` below but a different id and name. -/
def c1WitGoalA : Goal := ⟨"w1", "WA", 1200, ⟨2026, 8, 1⟩, some 300, none⟩

/-- Goal used to instantiate the amended claim C1. -/
def c1WitGoalB : Goal := ⟨"w2", "WB", 1200, ⟨2026, 8, 1⟩, some 300, none⟩

/-- Goal used by the claim C4 counterexample: planned monthly contribution 500
but an empty contribution history (historical average 0). -/
def c4Goal : Goal := ⟨"g4", "G4", 1000, ⟨2026, 8, 1⟩, some 500, none⟩

/-- Current date used by the claim C4 scenario. -/
def c4Now : Date := ⟨2025, 10, 1⟩

/-- Source `reports.tsx` `Account` row (the fields the verified computations read). -/
structure Account where
  id : String
  name : String
  balance : ℚ
  currency : String
deriving DecidableEq

/-- Source `reports.tsx` `account_balances` snapshot row. -/
structure AccountBalance where
  account_id : String
  balance : ℚ
  recorded_at : Date
deriving DecidableEq

/-- Backend state touched by the accounts view: the `accounts` and
`account_balances` tables. -/
structure AccountsState where
  accounts : List Account
  snapshots : List AccountBalance
deriving DecidableEq

/-- Source `reports.tsx` `updateAccountBalance`: set the account's balance and insert
a dated snapshot at the new balance. -/
def updateAccountBalance (st : AccountsState) (accountId : String)
    (newBalance : ℚ) (today : Date) : AccountsState :=
  { accounts := st.accounts.map fun a =>
      if a.id == accountId then { a with balance := newBalance } else a,
    snapshots := st.snapshots ++ [⟨accountId, newBalance, today⟩] }

/-- Whether the `transferAmount` form value (`number | ""`) is falsy
(`!transferAmount`): missing or zero. -/
def amountFalsy : Option ℚ → Bool
  | none => true
  | some q => q == 0

/-- Source `reports.tsx` Quick Transfer `onClick` (lines 693–707): guard on missing
fields, identical accounts or falsy amount; then deduct from the source and
credit the destination via `updateAccountBalance`. -/
def quickTransfer (st : AccountsState) (transferFrom transferTo : String)
    (transferAmount : Option ℚ) (today : Date) : AccountsState :=
  if transferFrom == "" || transferTo == "" || amountFalsy transferAmount ||
      transferFrom == transferTo then st
  else
    match st.accounts.find? (fun a => a.id == transferFrom),
        st.accounts.find? (fun a => a.id == transferTo) with
    | some fromAcc, some toAcc =>
      let amt := transferAmount.getD 0
      let st1 := updateAccountBalance st fromAcc.id (jsOrQ fromAcc.balance 0 - amt) today
      updateAccountBalance st1 toAcc.id (jsOrQ toAcc.balance 0 + amt) today
    | _, _ => st

/-- Source account of the claim C2 witness transfer. -/
def c2Acc1 : Account := ⟨"a1", "Checking", 100, "USD"⟩

/-- Destination account of the claim C2 witness transfer. -/
def c2Acc2 : Account := ⟨"a2", "Savings", 40, "CRC"⟩

/-- Initial state of the claim C2 witness transfer. -/
def c2State : AccountsState := ⟨[c2Acc1, c2Acc2], []⟩

/-- Date of the claim C2 witness transfer. -/
def c2Today : Date := ⟨2025, 10, 1⟩

/-- Source account (USD) of the claim C8 witness transfer. -/
def c8Acc1 : Account := ⟨"b1", "USD account", 100, "USD"⟩

/-- Destination account (CRC — a different currency) of the claim C8 witness
transfer. -/
def c8Acc2 : Account := ⟨"b2", "CRC account", 40, "CRC"⟩

/-- Initial state of the claim C8 witness transfer. -/
def c8State : AccountsState := ⟨[c8Acc1, c8Acc2], []⟩

/-- Date of the claim C8 witness transfer. -/
def c8Today : Date := ⟨2025, 10, 1⟩

/-- Source `recurring.tsx` `Recurring` template row. -/
structure Recurring where
  id : String
  name : String
  amount : ℚ
  frequency : String
  start_date : Date
  end_date : Option Date
  currency : String
deriving DecidableEq

/-- Source `recurring.tsx` `RecurringPayment` instance row. -/
structure RecurringPayment where
  id : String
  recurring_id : String
  date : Date
  actual_amount : Option ℚ
  is_paid : Bool
  account_id : Option String
deriving DecidableEq

/-- Source `expenses` table row (the fields written by the verified operations). -/
structure Expense where
  description : String
  category_id : Option String
  amount : ℚ
  date : Date
  account_id : Option String
  place : String
deriving DecidableEq

/-- Backend state touched by `recurring.tsx` `markPaid`: `accounts`,
`account_balances`, `expenses` and `recurring_payments`. -/
structure RecurringState where
  accounts : List Account
  snapshots : List AccountBalance
  expenses : List Expense
  payments : List RecurringPayment
deriving DecidableEq

/-- Source `recurring.tsx` `markPaid` (lines 302–376).  The two `confirm` dialogues
(currency mismatch and insufficient balance) are the Boolean parameters; the
backend calls are modelled as succeeding.  On the happy path the function
deducts the amount (per-occurrence `actual_amount` if recorded, else the
template's budgeted amount) from the chosen account, inserts a dated snapshot
at the new balance, inserts an expense row for the same amount dated at the
payment's date, and marks the payment paid with the chosen account. -/
def markPaid (st : RecurringState) (payment : RecurringPayment)
    (recurring : Recurring) (accountId : String)
    (confirmCurrency confirmBalance : Bool) (today : Date) : RecurringState :=
  match st.accounts.find? (fun x => x.id == accountId) with
  | none => st
  | some acc =>
    let amt := payment.actual_amount.getD recurring.amount
    if acc.currency ≠ recurring.currency ∧ confirmCurrency = false then st
    else if jsOrQ acc.balance 0 < amt ∧ confirmBalance = false then st
    else
      let newBalance := jsOrQ acc.balance 0 - amt
      { accounts := st.accounts.map fun x =>
          if x.id == acc.id then { x with balance := newBalance } else x,
        snapshots := st.snapshots ++ [⟨acc.id, newBalance, today⟩],
        expenses := st.expenses ++
          [⟨"Recurring: " ++ recurring.name, none, amt, payment.date,
            some acc.id, "Recurring"⟩],
        payments := st.payments.map fun p =>
          if p.id == payment.id then
            { p with is_paid := true, account_id := some acc.id }
          else p }

/-- Account used by the claim C3 witness. -/
def c3Acc : Account := ⟨"acc1", "Main", 500, "USD"⟩

/-- Pending payment instance (with a recorded actual amount of 60) used by the
claim C3 witness. -/
def c3Payment : RecurringPayment := ⟨"p1", "r1", ⟨2025, 10, 5⟩, some 60, false, none⟩

/-- Recurring template (budgeted amount 50) used by the claim C3 witness. -/
def c3Recurring : Recurring := ⟨"r1", "Rent", 50, "Monthly", ⟨2025, 1, 5⟩, none, "USD"⟩

/-- Initial state of the claim C3 witness. -/
def c3State : RecurringState := ⟨[c3Acc], [], [], [c3Payment]⟩

/-- Date of the claim C3 witness. -/
def c3Today : Date := ⟨2025, 10, 6⟩

/-- JS `Math.min` on integer-valued operands. -/
def jsMinZ (a b : ℤ) : ℤ := if a ≤ b then a else b

/-- Strict timestamp order on JS `Date` objects. -/
def Date.tsLT (a b : Date) : Bool := a.toDays < b.toDays

/-- JS `Date.getDay`: day of week (0 = Sunday), via the epoch-day number
(1970-01-01 was a Thursday). -/
def Date.dow (d : Date) : ℤ := Int.emod (d.toDays + 4) 7

/-- Normalise a (year, 1-based month) pair as the JS `Date` constructor does
with out-of-range months. -/
def normYM (y m : ℤ) : ℤ × ℤ := (y + Int.fdiv (m - 1) 12, Int.emod (m - 1) 12 + 1)

/-- Epoch-day number of the first day of a (possibly out-of-range) month. -/
def monthStartDays (y m : ℤ) : ℤ :=
  let p := normYM y m
  Date.toDays ⟨p.1, p.2, 1⟩

/-- Number of days in the (1-based) month `m` of year `y`: the model of JS
`new Date(y, m, 0).getDate()` (0-based month `m`, day 0). -/
def daysInMonthJS (y m : ℤ) : ℤ := monthStartDays y (m + 1) - monthStartDays y m

/-- Source `recurring.tsx` legacy `Recurring` component, `shouldInclude`
(lines 934–958): whether the calendar day `current` of the displayed month
(with `daysInMonth` days) is an occurrence of template `r`. -/
def shouldInclude (r : Recurring) (current : Date) (daysInMonth : ℤ) : Bool :=
  let start := r.start_date
  let startDay := start.day
  let dayOfWeek := start.dow
  match r.frequency with
  | "Monthly" =>
    current.day == jsMinZ startDay (daysInMonthJS current.year current.month)
  | "Weekly" => start.tsLE current && current.dow == dayOfWeek
  | "Semi-Monthly" =>
    let secondDay := startDay + 15
    start.tsLE current &&
      (current.day == startDay || current.day == jsMinZ secondDay daysInMonth)
  | "Yearly" => current.day == startDay && current.month == start.month
  | _ => false

/-- Source `recurring.tsx` legacy calendar loop (lines 923–965): day `day` of the
displayed month holds an occurrence of `r` when the template has not ended by
that date and `shouldInclude` accepts it. -/
def legacyOccursOnDay (r : Recurring) (y m day daysInMonth : ℤ) : Bool :=
  let current : Date := ⟨y, m, day⟩
  !(match r.end_date with
    | some e => e.tsLT current
    | none => false) && shouldInclude r current daysInMonth

/-- Form state of the `RecurringPage` create-recurring modal (`""` number and
date fields are `none`). -/
structure RecurringInput where
  name : String
  amount : Option ℚ
  frequency : String
  startDate : Option Date
  endDate : Option Date
  currency : String

/-- The `recurrings` row inserted by `recurring.tsx` `addRecurring`
(lines 245–287): `start_date` falls back to today (`startDate || toISO(new
Date())`), the amount to 0 (`Number(amount || 0)`), `end_date` to null. -/
def mkRecurringTemplate (inp : RecurringInput) (newId : String) (today : Date) :
    Recurring :=
  { id := newId, name := inp.name, amount := inp.amount.getD 0,
    frequency := inp.frequency, start_date := inp.startDate.getD today,
    end_date := inp.endDate, currency := inp.currency }

/-- Backend state read by the `RecurringPage` view: the `recurrings` and
`recurring_payments` tables. -/
structure RecurringPageState where
  recurrings : List Recurring
  payments : List RecurringPayment
deriving DecidableEq

/-- Source `recurring.tsx` `addRecurring` (RecurringPage, lines 245–287): insert the
template row and re-fetch both tables.  No `recurring_payments` rows are
written anywhere in this operation. -/
def addRecurring (st : RecurringPageState) (inp : RecurringInput)
    (newId : String) (today : Date) : RecurringPageState :=
  { recurrings := st.recurrings ++ [mkRecurringTemplate inp newId today],
    payments := st.payments }

/-- Source `recurring.tsx` `baseRows` (lines 173–183): the displayed month's payment
instances joined with their templates. -/
def baseRows (payments : List RecurringPayment) (recurrings : List Recurring)
    (monthStart monthEnd : Date) : List (RecurringPayment × Recurring) :=
  (payments.filter fun p => monthStart.lexLE p.date && p.date.lexLE monthEnd).filterMap
    fun p => (recurrings.find? fun r => r.id == p.recurring_id).map fun r => (p, r)

/-- Template-creation input of the claim C5 scenario: a Monthly template
starting 2025-06-05. -/
def c5Input : RecurringInput := ⟨"Netflix", some 25, "Monthly", some ⟨2025, 6, 5⟩, none, "USD"⟩

/-- Creation date of the claim C5 scenario. -/
def c5Today : Date := ⟨2025, 6, 1⟩

/-- Source `sidebar.tsx` `BudgetItem` row (the fields the verified computations read). -/
structure BudgetItem where
  name : String
  category_id : Option String
  amount : ℚ
  currency : String
  rollover_enabled : Bool
  account_id : Option String
deriving DecidableEq

/-- Source `sidebar.tsx` `Expense` row of the budget view. -/
structure BudgetExpense where
  category_id : Option String
  amount : ℚ
  date : Date
  account_id : String
deriving DecidableEq

/-- Source `sidebar.tsx` `actualByCategoryCurrency` key of an expense:
`` `${category_id || "uncat"}|${currency}` `` with the currency of the
expense's account (default `"USD"`). -/
def budgetExpenseKey (accounts : List Account) (e : BudgetExpense) : String :=
  let currency := ((accounts.find? fun a => a.id == e.account_id).map
    (fun a => a.currency)).getD "USD"
  (match e.category_id with
    | none => "uncat"
    | some s => jsOrS s "uncat") ++ "|" ++ currency

/-- Source `sidebar.tsx` `actualByCategoryCurrency`: the per-key map of month spend,
accumulated over the expense rows. -/
def actualByCategoryCurrency (expenses : List BudgetExpense)
    (accounts : List Account) : String → ℚ :=
  expenses.foldl
    (fun m e k =>
      if k == budgetExpenseKey accounts e then m k + jsOrQ e.amount 0 else m k)
    (fun _ => 0)

/-- Source `sidebar.tsx` `rolloverForItem` (line 543): the rollover placeholder,
`bi.rollover_enabled ? 0 : 0`. -/
def rolloverForItem (bi : BudgetItem) : ℚ :=
  if bi.rollover_enabled then 0 else 0

/-- Derived budget row of `sidebar.tsx` `rows` (lines 546–563). -/
structure BudgetRow where
  actual : ℚ
  plannedTotal : ℚ
  remaining : ℚ
  pct : ℚ
  rolloverIn : ℚ
  status : String
deriving DecidableEq

/-- Source `sidebar.tsx` `rows` (lines 546–563): planned total (with rollover),
remaining, percentage used (clamped to [0, 100]) and ok/near/over status for
one budget item. -/
def budgetRowFor (expenses : List BudgetExpense) (accounts : List Account)
    (bi : BudgetItem) : BudgetRow :=
  let key := (match bi.category_id with
    | none => "uncat"
    | some s => jsOrS s "uncat") ++ "|" ++ bi.currency
  let actual := actualByCategoryCurrency expenses accounts key
  let rolloverIn := rolloverForItem bi
  let plannedTotal := jsOrQ bi.amount 0 + rolloverIn
  let remaining := plannedTotal - actual
  let pct := if 0 < plannedTotal then jsMin 100 (jsMax 0 (actual / plannedTotal * 100)) else 0
  let status := if 100 ≤ pct then "over" else if 80 ≤ pct then "near" else "ok"
  ⟨actual, plannedTotal, remaining, pct, rolloverIn, status⟩

/-- Source `categories` row. -/
structure Category where
  id : String
  name : String
deriving DecidableEq

/-- The amount text field of the add-expense form, as seen by the guard
`!amount || isNaN(Number(amount))`: empty, non-numeric, or a number. -/
inductive AmountField where
  | empty : AmountField
  | notNum : AmountField
  | num (q : ℚ) : AmountField
deriving DecidableEq

/-- Form state of the add-expense page (lines 821–825). -/
structure AddExpenseForm where
  amount : AmountField
  description : String
  categoryId : String
  message : String
deriving DecidableEq

/-- Source `expenses` row inserted by the add-expense page. -/
structure UserExpense where
  user_id : String
  category_id : String
  amount : ℚ
  description : String
  date : Date
deriving DecidableEq

/-- Form plus backend state of the add-expense page. -/
structure AddExpenseState where
  form : AddExpenseForm
  expenses : List UserExpense
deriving DecidableEq

/-- Source `cashflow.tsx` `handleAddExpense` (lines 859–893): clear the message,
validate the amount and category, then insert; on a backend error display it,
on success reset the form (amount, description, category back to the first
category when one exists). -/
def handleAddExpense (st : AddExpenseState) (userId : String)
    (categories : List Category) (today : Date) (insertError : Option String) :
    AddExpenseState :=
  match st.form.amount with
  | .empty => { st with form := { st.form with message := "❌ Please enter a valid amount." } }
  | .notNum => { st with form := { st.form with message := "❌ Please enter a valid amount." } }
  | .num q =>
    if st.form.categoryId == "" then
      { st with form := { st.form with message := "❌ Please select a category." } }
    else
      match insertError with
      | some e => { st with form := { st.form with message := "❌ " ++ e } }
      | none =>
        { form :=
            { amount := .empty, description := "",
              categoryId :=
                match categories with
                | [] => st.form.categoryId
                | c :: _ => c.id,
              message := "✅ Expense added!" },
          expenses := st.expenses ++
            [⟨userId, st.form.categoryId, q, st.form.description, today⟩] }

/-- Add-expense state with an empty amount (claim C7 witness input). -/
def c7StEmpty : AddExpenseState := ⟨⟨.empty, "coffee", "cat1", "old"⟩, []⟩

/-- Add-expense state with a valid amount but no category selected (claim C7
witness input). -/
def c7StNoCat : AddExpenseState := ⟨⟨.num 12, "coffee", "", "old"⟩, []⟩

/-- Add-expense state hitting a backend insert error (claim C7 witness
input). -/
def c7StErr : AddExpenseState := ⟨⟨.num 12, "coffee", "cat1", "old"⟩, []⟩

/-- Date used by the claim C7 witness. -/
def c7Today : Date := ⟨2025, 10, 6⟩

/-- JS `Math.abs`. -/
def jsAbs (q : ℚ) : ℚ := if q < 0 then -q else q

/-- Grouping selector of the cash-flow view. -/
inductive GroupBy where
  | day : GroupBy
  | week : GroupBy
  | month : GroupBy
deriving DecidableEq

/-- A period key produced by `cashflow.tsx` `fmtPeriod`: the structural model
of the `"yyyy-mm-dd"`, `"yyyy-Www"` and `"yyyy-mm"` strings. -/
inductive Period where
  | pday (y m d : ℤ) : Period
  | pweek (y w : ℤ) : Period
  | pmonth (y m : ℤ) : Period
deriving DecidableEq

/-- Source `cashflow.tsx` `fmtPeriod` (lines 73–94).  For weeks it implements the
source's ISO-week computation: shift to the Thursday of the current week, then
count weeks from the week containing January 4th. -/
def fmtPeriod (grp : GroupBy) (d : Date) : Period :=
  match grp with
  | .day => .pday d.year d.month d.day
  | .month => .pmonth d.year d.month
  | .week =>
    let dayNum := Int.emod (d.dow + 6) 7
    let thursday := Date.ofDays (d.toDays - dayNum + 3)
    let week1 : Date := ⟨thursday.year, 1, 4⟩
    let weekNo :=
      1 + jsRound ((((thursday.toDays - week1.toDays : ℤ) : ℚ) - 3 +
        ((Int.emod (week1.dow + 6) 7 : ℤ) : ℚ)) / 7)
    .pweek thursday.year weekNo

/-- Order on period keys matching `localeCompare` on the period strings of a
single grouping mode (the only comparisons a run performs). -/
def Period.keyLE : Period → Period → Bool
  | .pday y1 m1 d1, .pday y2 m2 d2 =>
    Date.lexLE ⟨y1, m1, d1⟩ ⟨y2, m2, d2⟩
  | .pweek y1 w1, .pweek y2 w2 =>
    if y1 ≠ y2 then y1 < y2 else w1 ≤ w2
  | .pmonth y1 m1, .pmonth y2 m2 =>
    if y1 ≠ y2 then y1 < y2 else m1 ≤ m2
  | .pday _ _ _, _ => true
  | _, .pday _ _ _ => false
  | .pweek _ _, _ => true
  | _, .pweek _ _ => false

/-- First-occurrence deduplication with an accumulator of already-seen
elements: the key set of a JS `Map`/object in insertion order. -/
def edfAux {α : Type} [DecidableEq α] (seen : List α) : List α → List α
  | [] => []
  | x :: xs => if x ∈ seen then edfAux seen xs else x :: edfAux (x :: seen) xs

/-- Keys of a JS `Map` built by repeated `set`: first occurrences, in order. -/
def eraseDupsKeepFirst {α : Type} [DecidableEq α] (l : List α) : List α :=
  edfAux [] l

/-- The days enumerated by the `while (cursor <= range.end)` loops of
`flowByPeriod_txn`/`flowByPeriod_snap`: one `Date` per epoch day from `start`
to `ed` inclusive (empty when `start` is after `ed`). -/
def dayList (start ed : Date) : List Date :=
  (List.range (ed.toDays - start.toDays + 1).toNat).map
    fun i => Date.ofDays (start.toDays + i)

/-- The period keys initialised by the range loop, in `Map` insertion order. -/
def periodKeys (grp : GroupBy) (start ed : Date) : List Period :=
  eraseDupsKeepFirst ((dayList start ed).map (fmtPeriod grp))

/-- Per-period inflow/outflow accumulator cell. -/
structure FlowCell where
  inflow : ℚ
  outflow : ℚ
deriving DecidableEq

/-- The period `Map` right after the initialisation loop: `{inflow: 0,
outflow: 0}` for every enumerated period, absent otherwise. -/
def initFlowMap (keys : List Period) : Period → Option FlowCell :=
  fun p => if p ∈ keys then some ⟨0, 0⟩ else none

/-- Source `cashflow.tsx` `toBase` (lines 168–173): convert an amount from `currency`
to the base currency using the CRC↔USD rate. -/
def toBase (baseCurrency : String) (fxRate : ℚ) (amt : ℚ) (currency : String) : ℚ :=
  if baseCurrency == currency then amt
  else if currency == "CRC" && baseCurrency == "USD" then amt / fxRate
  else if currency == "USD" && baseCurrency == "CRC" then amt * fxRate
  else amt

/-- Source `incomes` row (the fields the cash-flow computation reads). -/
structure Income where
  amount : ℚ
  date : Date
  account_id : String
deriving DecidableEq

/-- Source `expenses` row as read by the cash-flow computation. -/
structure CashExpense where
  amount : ℚ
  date : Date
  account_id : String
deriving DecidableEq

/-- Source `cashflow.tsx` `accountFilter` (lines 176–178). -/
def accountFilter (selectedAccounts : List String) (accountId : String) : Bool :=
  selectedAccounts.isEmpty ||
    (if accountId == "" then true else selectedAccounts.contains accountId)

/-- The in-range snapshots (`if (d < range.start || d > range.end) continue`). -/
def snapsInRange (snaps : List AccountBalance) (start ed : Date) :
    List AccountBalance :=
  snaps.filter fun s => !(s.recorded_at.tsLT start) && !(ed.tsLT s.recorded_at)

/-- The account ids of the `byAcc` grouping object, in first-appearance order
(JS object keys are iterated in insertion order). -/
def accountIdsInOrder (snaps : List AccountBalance) : List String :=
  eraseDupsKeepFirst (snaps.map fun s => s.account_id)

/-- One account's snapshot group, sorted by `recorded_at` (the source sorts
each `byAcc` bucket with `localeCompare`). -/
def accountGroup (snaps : List AccountBalance) (gid : String) :
    List AccountBalance :=
  sortBy (fun a b => a.recorded_at.lexLE b.recorded_at)
    (snaps.filter fun s => s.account_id == gid)

/-- The currency used for a group's conversions:
`accounts.find(a => a.id === arr[0]?.account_id)?.currency ?? baseCurrency`. -/
def groupCurrency (accounts : List Account) (baseCurrency : String)
    (arr : List AccountBalance) : String :=
  match arr with
  | [] => baseCurrency
  | a0 :: _ =>
    ((accounts.find? fun a => a.id == a0.account_id).map fun a => a.currency).getD
      baseCurrency

/-- One iteration of the snapshot-delta loop of `flowByPeriod_snap`
(lines 248–257): add the converted absolute delta of a consecutive snapshot
pair to the inflow (delta ≥ 0) or outflow (delta < 0) of the later snapshot's
period, skipping periods absent from the map. -/
def snapStep (baseCurrency : String) (fxRate : ℚ) (cur : String) (grp : GroupBy)
    (m : Period → Option FlowCell) (pr : AccountBalance × AccountBalance) :
    Period → Option FlowCell :=
  let delta := pr.2.balance - pr.1.balance
  let key := fmtPeriod grp pr.2.recorded_at
  match m key with
  | none => m
  | some fl =>
    let valBase := toBase baseCurrency fxRate (jsAbs delta) cur
    if 0 ≤ delta then
      fun p => if p == key then some ⟨fl.inflow + valBase, fl.outflow⟩ else m p
    else
      fun p => if p == key then some ⟨fl.inflow, fl.outflow + valBase⟩ else m p

/-- The period map produced by `flowByPeriod_snap` (lines 231–258): initialise
every period of the range, then for each account (in `byAcc` order) fold the
consecutive pairs of its sorted in-range snapshots. -/
def flowMapSnap (snaps : List AccountBalance) (accounts : List Account)
    (baseCurrency : String) (fxRate : ℚ) (grp : GroupBy) (start ed : Date) :
    Period → Option FlowCell :=
  let inRange := snapsInRange snaps start ed
  (accountIdsInOrder inRange).foldl
    (fun m gid =>
      let arr := accountGroup inRange gid
      let cur := groupCurrency accounts baseCurrency arr
      (arr.zip arr.tail).foldl (snapStep baseCurrency fxRate cur grp) m)
    (initFlowMap (periodKeys grp start ed))

/-- One row of the rendered cash-flow series. -/
structure FlowOut where
  period : Period
  inflow : ℚ
  outflow : ℚ
  net : ℚ
deriving DecidableEq

/-- Source `cashflow.tsx` `flowByPeriod_snap` (lines 231–262): the per-period series,
sorted by period key, with `net = inflow - outflow`. -/
def flowByPeriodSnap (snaps : List AccountBalance) (accounts : List Account)
    (baseCurrency : String) (fxRate : ℚ) (grp : GroupBy) (start ed : Date) :
    List FlowOut :=
  let m := flowMapSnap snaps accounts baseCurrency fxRate grp start ed
  (sortBy Period.keyLE (periodKeys grp start ed)).map fun p =>
    let fl := (m p).getD ⟨0, 0⟩
    ⟨p, fl.inflow, fl.outflow, fl.inflow - fl.outflow⟩

/-- One iteration of the income loop of `flowByPeriod_txn` (lines 189–200). -/
def txnIncomeStep (accounts : List Account) (selectedAccounts : List String)
    (baseCurrency : String) (fxRate : ℚ) (grp : GroupBy) (start ed : Date)
    (m : Period → Option FlowCell) (inc : Income) : Period → Option FlowCell :=
  if !(accountFilter selectedAccounts inc.account_id) then m
  else if inc.date.tsLT start || ed.tsLT inc.date then m
  else
    let key := fmtPeriod grp inc.date
    match m key with
    | none => m
    | some fl =>
      let cur := ((accounts.find? fun a => a.id == inc.account_id).map
        fun a => a.currency).getD baseCurrency
      fun p =>
        if p == key then
          some ⟨fl.inflow + toBase baseCurrency fxRate (jsOrQ inc.amount 0) cur,
            fl.outflow⟩
        else m p

/-- One iteration of the expense loop of `flowByPeriod_txn` (lines 202–213). -/
def txnExpenseStep (accounts : List Account) (selectedAccounts : List String)
    (baseCurrency : String) (fxRate : ℚ) (grp : GroupBy) (start ed : Date)
    (m : Period → Option FlowCell) (exp : CashExpense) : Period → Option FlowCell :=
  if !(accountFilter selectedAccounts exp.account_id) then m
  else if exp.date.tsLT start || ed.tsLT exp.date then m
  else
    let key := fmtPeriod grp exp.date
    match m key with
    | none => m
    | some fl =>
      let cur := ((accounts.find? fun a => a.id == exp.account_id).map
        fun a => a.currency).getD baseCurrency
      fun p =>
        if p == key then
          some ⟨fl.inflow,
            fl.outflow + toBase baseCurrency fxRate (jsOrQ exp.amount 0) cur⟩
        else m p

/-- Source `cashflow.tsx` `flowByPeriod_txn` (lines 181–228): the per-period series
computed from income and expense transactions. -/
def flowByPeriodTxn (incomes : List Income) (expenses : List CashExpense)
    (accounts : List Account) (selectedAccounts : List String)
    (baseCurrency : String) (fxRate : ℚ) (grp : GroupBy) (start ed : Date) :
    List FlowOut :=
  let m1 := incomes.foldl
    (txnIncomeStep accounts selectedAccounts baseCurrency fxRate grp start ed)
    (initFlowMap (periodKeys grp start ed))
  let m2 := expenses.foldl
    (txnExpenseStep accounts selectedAccounts baseCurrency fxRate grp start ed) m1
  (sortBy Period.keyLE (periodKeys grp start ed)).map fun p =>
    let fl := (m2 p).getD ⟨0, 0⟩
    ⟨p, fl.inflow, fl.outflow, fl.inflow - fl.outflow⟩

/-- Source `cashflow.tsx` lines 264–265: `useTxn = incomes.length > 0` selects the
transaction-based series, otherwise the snapshot-inferred one. -/
def cashflowFlow (incomes : List Income) (expenses : List CashExpense)
    (snaps : List AccountBalance) (accounts : List Account)
    (selectedAccounts : List String) (baseCurrency : String) (fxRate : ℚ)
    (grp : GroupBy) (start ed : Date) : List FlowOut :=
  if incomes.length > 0 then
    flowByPeriodTxn incomes expenses accounts selectedAccounts baseCurrency fxRate
      grp start ed
  else
    flowByPeriodSnap snaps accounts baseCurrency fxRate grp start ed

/-- Balance delta of a consecutive snapshot pair (`arr[i] - arr[i-1]`). -/
def pairDelta (pr : AccountBalance × AccountBalance) : ℚ := pr.2.balance - pr.1.balance

/-- Converted absolute deltas of the pairs with nonnegative delta landing in
period `p` (the quantity the source folds into the inflow). -/
def snapPairPosSum (bc : String) (fx : ℚ) (cur : String) (grp : GroupBy) (p : Period)
    (pairs : List (AccountBalance × AccountBalance)) : ℚ :=
  ((pairs.filter fun pr =>
      fmtPeriod grp pr.2.recorded_at == p && decide (0 ≤ pairDelta pr)).map
    fun pr => toBase bc fx (jsAbs (pairDelta pr)) cur).sum

/-- Converted absolute deltas of the pairs with negative delta landing in
period `p` (the quantity the source folds into the outflow). -/
def snapPairNegSum (bc : String) (fx : ℚ) (cur : String) (grp : GroupBy) (p : Period)
    (pairs : List (AccountBalance × AccountBalance)) : ℚ :=
  ((pairs.filter fun pr =>
      fmtPeriod grp pr.2.recorded_at == p && decide (pairDelta pr < 0)).map
    fun pr => toBase bc fx (jsAbs (pairDelta pr)) cur).sum

/-- Phrasing of claim C6 as the specification states it: the inflow of period
`p` is, over each account, the sum of the (base-converted) deltas of the
consecutive in-range snapshot pairs with positive delta whose later snapshot
falls in `p`. -/
def specSnapInflowAt (snaps : List AccountBalance) (accounts : List Account)
    (baseCurrency : String) (fxRate : ℚ) (grp : GroupBy) (start ed : Date)
    (p : Period) : ℚ :=
  let inRange := snapsInRange snaps start ed
  ((accountIdsInOrder inRange).map fun gid =>
    let arr := accountGroup inRange gid
    let cur := groupCurrency accounts baseCurrency arr
    (((arr.zip arr.tail).filter fun pr =>
        fmtPeriod grp pr.2.recorded_at == p && decide (0 < pairDelta pr)).map
      fun pr => toBase baseCurrency fxRate (pairDelta pr) cur).sum).sum

/-- Phrasing of claim C6 as the specification states it: the outflow of period
`p` sums each negative delta's absolute value. -/
def specSnapOutflowAt (snaps : List AccountBalance) (accounts : List Account)
    (baseCurrency : String) (fxRate : ℚ) (grp : GroupBy) (start ed : Date)
    (p : Period) : ℚ :=
  let inRange := snapsInRange snaps start ed
  ((accountIdsInOrder inRange).map fun gid =>
    let arr := accountGroup inRange gid
    let cur := groupCurrency accounts baseCurrency arr
    (((arr.zip arr.tail).filter fun pr =>
        fmtPeriod grp pr.2.recorded_at == p && decide (pairDelta pr < 0)).map
      fun pr => toBase baseCurrency fxRate (-(pairDelta pr)) cur).sum).sum

/-- Snapshot history of the claim C6 witness: one account with balances 100,
130, 120 on three consecutive days (deltas +30 and −10). -/
def c6Snaps : List AccountBalance :=
  [⟨"a", 100, ⟨2025, 6, 1⟩⟩, ⟨"a", 130, ⟨2025, 6, 2⟩⟩, ⟨"a", 120, ⟨2025, 6, 3⟩⟩]

/-- Account list of the claim C6 witness. -/
def c6Accounts : List Account := [⟨"a", "A", 120, "USD"⟩]

/-- Range start of the claim C6 witness. -/
def c6Start : Date := ⟨2025, 6, 1⟩

/-- Range end of the claim C6 witness. -/
def c6End : Date := ⟨2025, 6, 3⟩

/-- An income row making the range non-empty of incomes (claim C6 witness). -/
def c6Income : Income := ⟨50, ⟨2025, 6, 2⟩, "a"⟩

/-! ## Claim theorems and supporting lemmas -/

/-- Claim C1, as stated, is false: `c1GoalA` and `c1GoalB` (both with an empty
contribution history) agree on the remaining amount (1000), the months left
(10) and the contributions already made this month (0), yet the rebalance
persists `monthly_contribution = 110` for the first and `550` for the second,
because the computation also reads the goal's planned `monthly_contribution`
(and the historical average) through `baselineMonthly`. -/
theorem C1_counterexample :
    (remainingOf c1GoalA [] = remainingOf c1GoalB [] ∧
      monthsLeftOf c1Now c1GoalA = monthsLeftOf c1Now c1GoalB ∧
      thisMonthContrib [] c1GoalA.id c1Now = thisMonthContrib [] c1GoalB.id c1Now) ∧
    (rebalanceGoalMonthly [c1GoalA] [] c1GoalA c1Now).map
        (fun x => x.monthly_contribution) = [some 110] ∧
    (rebalanceGoalMonthly [c1GoalB] [] c1GoalB c1Now).map
        (fun x => x.monthly_contribution) = [some 550] := by
  refine ⟨⟨?_, ?_, ?_⟩, ?_, ?_⟩ <;>
    norm_num [rebalanceGoalMonthly, rebalanceNewMonthly, baselineMonthlyOf,
      rebalanceAdjOf, plannedMonthlyOf, suggestedOf, remainingOf, monthsLeftOf,
      monthsLeftExclCurrentOf, savedFor, monthlyAvgFor, thisMonthContrib,
      monthsBetween, jsMax, jsMaxZ, jsOrQ, jsRound, jsCeil, c1GoalA, c1GoalB,
      c1Now, sortBy, Int.ceil_eq_iff]

/-- Claim C1 (amended): the rebalanced `monthly_contribution` is determined by
six quantities of the goal/history — the remaining amount, the months left,
the months left excluding the current month, the contributions already made in
the current month, the goal's planned monthly contribution, and the historical
monthly average of its contributions.  Any two goals/histories agreeing on all
six persist the same value. -/
theorem C1_rebalance_determined_by_extended_inputs
    (g1 g2 : Goal) (c1 c2 : List GoalContribution) (now : Date)
    (hrem : remainingOf g1 c1 = remainingOf g2 c2)
    (hml : monthsLeftOf now g1 = monthsLeftOf now g2)
    (hmx : monthsLeftExclCurrentOf now g1 = monthsLeftExclCurrentOf now g2)
    (hctm : thisMonthContrib c1 g1.id now = thisMonthContrib c2 g2.id now)
    (hpl : plannedMonthlyOf g1 = plannedMonthlyOf g2)
    (havg : monthlyAvgFor c1 g1.id = monthlyAvgFor c2 g2.id) :
    rebalanceNewMonthly g1 c1 now = rebalanceNewMonthly g2 c2 now := by
  simp only [rebalanceNewMonthly, rebalanceAdjOf, baselineMonthlyOf, suggestedOf,
    hrem, hml, hmx, hctm, hpl, havg]

/-- Witness instantiating `C1_rebalance_determined_by_extended_inputs` at the
concrete goals `c1WitGoalA`/`c1WitGoalB` with empty histories. -/
theorem C1_witness :
    (remainingOf c1WitGoalA [] = remainingOf c1WitGoalB [] ∧
      monthsLeftOf c1Now c1WitGoalA = monthsLeftOf c1Now c1WitGoalB ∧
      monthsLeftExclCurrentOf c1Now c1WitGoalA = monthsLeftExclCurrentOf c1Now c1WitGoalB ∧
      thisMonthContrib [] c1WitGoalA.id c1Now = thisMonthContrib [] c1WitGoalB.id c1Now ∧
      plannedMonthlyOf c1WitGoalA = plannedMonthlyOf c1WitGoalB ∧
      monthlyAvgFor [] c1WitGoalA.id = monthlyAvgFor [] c1WitGoalB.id) ∧
    rebalanceNewMonthly c1WitGoalA [] c1Now = rebalanceNewMonthly c1WitGoalB [] c1Now := by
  refine ⟨⟨?_, ?_, ?_, ?_, ?_, ?_⟩, ?_⟩
  case _ => norm_num [remainingOf, savedFor, c1WitGoalA, c1WitGoalB]
  case _ => norm_num [monthsLeftOf, monthsBetween, c1WitGoalA, c1WitGoalB]
  case _ => norm_num [monthsLeftExclCurrentOf, monthsBetween, c1WitGoalA, c1WitGoalB]
  case _ => norm_num [thisMonthContrib, c1WitGoalA, c1WitGoalB]
  case _ => norm_num [plannedMonthlyOf, jsOrQ, c1WitGoalA, c1WitGoalB]
  case _ => norm_num [monthlyAvgFor, sortBy, c1WitGoalA, c1WitGoalB]
  case _ =>
    exact C1_rebalance_determined_by_extended_inputs c1WitGoalA c1WitGoalB [] [] c1Now
      (by norm_num [remainingOf, savedFor, c1WitGoalA, c1WitGoalB])
      (by norm_num [monthsLeftOf, monthsBetween, c1WitGoalA, c1WitGoalB])
      (by norm_num [monthsLeftExclCurrentOf, monthsBetween, c1WitGoalA, c1WitGoalB])
      (by norm_num [thisMonthContrib, c1WitGoalA, c1WitGoalB])
      (by norm_num [plannedMonthlyOf, jsOrQ, c1WitGoalA, c1WitGoalB])
      (by norm_num [monthlyAvgFor, sortBy, c1WitGoalA, c1WitGoalB])

/-- Claim C4, as stated, is false: for `c4Goal` (target 1000, planned monthly
500, no contributions, so a historical average pace of 0) the source marks the
goal "On track" — it projects at the rebalanced monthly value 550 — while a
projection at the historical average contribution rate (0 per month) never
reaches the target, so the claimed characterisation says "at risk".  Both
month-count readings of the claim agree here (`monthsLeft` and
`monthsLeftExclCurrent` are both 10, and 0 · 10 < 1000). -/
theorem C4_counterexample :
    rowOnTrack c4Goal [] c4Now = true ∧
    specOnTrackHistoricalPace c4Goal [] c4Now = false ∧
    monthlyAvgFor [] c4Goal.id = 0 := by
  refine ⟨?_, ?_, ?_⟩ <;>
    norm_num [rowOnTrack, specOnTrackHistoricalPace, savedFor, monthlyAvgFor,
      thisMonthContrib, monthsBetween, monthsLeftExclCurrentOf, jsMax, jsMaxZ,
      jsOrQ, jsRound, jsCeil, c4Goal, c4Now, sortBy, Int.ceil_eq_iff]

/-- Claim C4 (amended): a goal's derived "on track" status holds iff the
amount already saved plus the projection of the *rebalanced* next-monthly
contribution (planned monthly if set, else the rounded historical average,
else the suggested remaining/months value, adjusted for the current month's
shortfall or excess) over the months left excluding the current month reaches
the target amount.  This is stated for every goal, hence for every open goal
shown by the cards view. -/
theorem C4_onTrack_uses_rebalanced_monthly
    (g : Goal) (contribs : List GoalContribution) (now : Date) :
    rowOnTrack g contribs now =
      decide (g.target_amount ≤
        savedFor contribs g.id +
          rebalanceNewMonthly g contribs now * (monthsLeftExclCurrentOf now g : ℚ)) :=
  rfl

/-- Claim C10: in the goal rebalance computation both divisors are clamped to
at least 1 (so neither division can be by zero), the remaining amount is
clamped to at least 0, and the persisted new `monthly_contribution` is always
nonnegative. -/
theorem C10_rebalance_clamps_safe
    (g : Goal) (contribs : List GoalContribution) (now : Date) :
    1 ≤ monthsLeftOf now g ∧ 1 ≤ monthsLeftExclCurrentOf now g ∧
    0 ≤ remainingOf g contribs ∧ 0 ≤ rebalanceNewMonthly g contribs now := by
  refine ⟨?_, ?_, ?_, ?_⟩ <;>
    simp only [monthsLeftOf, monthsLeftExclCurrentOf, remainingOf, rebalanceNewMonthly,
      jsMaxZ, jsMax] <;>
    split <;> first | omega | linarith

/-- The JS `|| 0` fallback is the identity on rationals. -/
theorem jsOrQ_zero (a : ℚ) : jsOrQ a 0 = a := by
  unfold jsOrQ; split <;> simp_all

/-- Lists searched with pointwise-equal predicates yield the same result. -/
theorem find?_congr_pred {α : Type} (l : List α) (p q : α → Bool)
    (h : ∀ x ∈ l, p x = q x) : l.find? p = l.find? q := by
  induction l with
  | nil => rfl
  | cons y ys ih =>
    simp only [List.find?]
    rw [h y (by simp)]
    cases hq : q y
    · exact ih fun x hx => h x (by simp [hx])
    · rfl

/-- Effect of a quick transfer when the guard passes and both accounts are
found: the source is debited, the destination credited, and one snapshot per
updated account is appended. -/
theorem quickTransfer_run (st : AccountsState) (tf tt : String) (a : ℚ) (today : Date)
    (fromAcc toAcc : Account)
    (hf0 : tf ≠ "") (ht0 : tt ≠ "") (ha : a ≠ 0) (hne : tf ≠ tt)
    (hf : st.accounts.find? (fun x => x.id == tf) = some fromAcc)
    (ht : st.accounts.find? (fun x => x.id == tt) = some toAcc) :
    quickTransfer st tf tt (some a) today =
      { accounts := st.accounts.map fun x =>
          if x.id == tf then { x with balance := jsOrQ fromAcc.balance 0 - a }
          else if x.id == tt then { x with balance := jsOrQ toAcc.balance 0 + a }
          else x,
        snapshots := st.snapshots ++
          [⟨tf, jsOrQ fromAcc.balance 0 - a, today⟩,
           ⟨tt, jsOrQ toAcc.balance 0 + a, today⟩] } := by
  have hfid : fromAcc.id = tf := by
    have h1 := List.find?_some hf
    simpa using h1
  have htid : toAcc.id = tt := by
    have h1 := List.find?_some ht
    simpa using h1
  unfold quickTransfer
  rw [if_neg]
  · rw [hf, ht]
    simp only [updateAccountBalance, Option.getD_some, hfid, htid, List.map_map,
      AccountsState.mk.injEq, List.append_assoc, List.singleton_append,
      List.cons_append, List.nil_append, and_true]
    apply List.map_congr_left
    intro x _
    by_cases hxf : x.id = tf
    · simp [Function.comp, hxf, hne]
    · by_cases hxt : x.id = tt
      · simp [Function.comp, hxf, hxt, Ne.symm hne]
      · simp [Function.comp, hxf, hxt]
  · simp [amountFalsy, hf0, ht0, ha, hne]

/-- A quick transfer with identical endpoints or a missing/zero amount leaves
the state untouched. -/
theorem quickTransfer_noop (st : AccountsState) (tf tt : String) (amt : Option ℚ)
    (today : Date) (h : tf = tt ∨ amt = none ∨ amt = some 0) :
    quickTransfer st tf tt amt today = st := by
  unfold quickTransfer
  rcases h with h | h | h
  · rw [if_pos]; simp [h]
  · rw [if_pos]; simp [h, amountFalsy]
  · rw [if_pos]; simp [h, amountFalsy]

/-- Claim C2: a quick transfer between selected, distinct, existing accounts
with a nonzero amount updates the source balance to its old balance minus the
amount and the destination balance to its old balance plus the amount, and
appends exactly one dated snapshot per updated account at that account's new
balance; when the endpoints coincide or the amount is missing (or zero), no
balance update and no snapshot insert occurs. -/
theorem C2_quickTransfer_effect (st : AccountsState) (tf tt : String) (a : ℚ)
    (today : Date) (fromAcc toAcc : Account)
    (hf0 : tf ≠ "") (ht0 : tt ≠ "") (ha : a ≠ 0) (hne : tf ≠ tt)
    (hf : st.accounts.find? (fun x => x.id == tf) = some fromAcc)
    (ht : st.accounts.find? (fun x => x.id == tt) = some toAcc) :
    quickTransfer st tf tt (some a) today =
      { accounts := st.accounts.map fun x =>
          if x.id == tf then { x with balance := fromAcc.balance - a }
          else if x.id == tt then { x with balance := toAcc.balance + a }
          else x,
        snapshots := st.snapshots ++
          [⟨tf, fromAcc.balance - a, today⟩, ⟨tt, toAcc.balance + a, today⟩] } ∧
    (∀ (f t : String) (m : Option ℚ), (f = t ∨ m = none ∨ m = some 0) →
      quickTransfer st f t m today = st) := by
  constructor
  · rw [quickTransfer_run st tf tt a today fromAcc toAcc hf0 ht0 ha hne hf ht]
    simp [jsOrQ_zero]
  · intro f t m h
    exact quickTransfer_noop st f t m today h

/-- Witness instantiating `C2_quickTransfer_effect` on a concrete two-account
state and a transfer of 25. -/
theorem C2_witness :
    (("a1" : String) ≠ "" ∧ ("a2" : String) ≠ "" ∧ (25 : ℚ) ≠ 0 ∧
      ("a1" : String) ≠ "a2" ∧
      c2State.accounts.find? (fun x => x.id == "a1") = some c2Acc1 ∧
      c2State.accounts.find? (fun x => x.id == "a2") = some c2Acc2) ∧
    (quickTransfer c2State "a1" "a2" (some 25) c2Today =
      { accounts := c2State.accounts.map fun x =>
          if x.id == "a1" then { x with balance := c2Acc1.balance - 25 }
          else if x.id == "a2" then { x with balance := c2Acc2.balance + 25 }
          else x,
        snapshots := c2State.snapshots ++
          [⟨"a1", c2Acc1.balance - 25, c2Today⟩, ⟨"a2", c2Acc2.balance + 25, c2Today⟩] } ∧
      ∀ (f t : String) (m : Option ℚ), (f = t ∨ m = none ∨ m = some 0) →
        quickTransfer c2State f t m c2Today = c2State) :=
  ⟨⟨by decide, by decide, by norm_num, by decide, by rfl, by rfl⟩,
    C2_quickTransfer_effect c2State "a1" "a2" 25 c2Today c2Acc1 c2Acc2
      (by decide) (by decide) (by norm_num) (by decide) (by rfl) (by rfl)⟩

/-- Claim C8: for a quick transfer between two distinct existing accounts the
debit numerically equals the credit, so the sum of the two accounts' balances
is unchanged — regardless of the accounts' currencies (the code applies no
conversion). -/
theorem C8_transfer_preserves_sum (st : AccountsState) (tf tt : String) (a : ℚ)
    (today : Date) (fromAcc toAcc : Account)
    (hf0 : tf ≠ "") (ht0 : tt ≠ "") (ha : a ≠ 0) (hne : tf ≠ tt)
    (hf : st.accounts.find? (fun x => x.id == tf) = some fromAcc)
    (ht : st.accounts.find? (fun x => x.id == tt) = some toAcc) :
    ((quickTransfer st tf tt (some a) today).accounts.find? (fun x => x.id == tf)) =
      some { fromAcc with balance := fromAcc.balance - a } ∧
    ((quickTransfer st tf tt (some a) today).accounts.find? (fun x => x.id == tt)) =
      some { toAcc with balance := toAcc.balance + a } ∧
    (fromAcc.balance - a) + (toAcc.balance + a) = fromAcc.balance + toAcc.balance := by
  have hfid : fromAcc.id = tf := by simpa using List.find?_some hf
  have htid : toAcc.id = tt := by simpa using List.find?_some ht
  rw [quickTransfer_run st tf tt a today fromAcc toAcc hf0 ht0 ha hne hf ht]
  refine ⟨?_, ?_, by ring⟩
  · simp only [List.find?_map, Function.comp]
    rw [find?_congr_pred _ _ (fun x => x.id == tf) (by
      intro x _
      by_cases hxf : x.id = tf
      · simp [hxf, hne]
      · by_cases hxt : x.id = tt
        · simp [hxf, hxt, Ne.symm hne]
        · simp [hxf, hxt])]
    rw [hf]
    simp [hfid, jsOrQ_zero]
  · simp only [List.find?_map, Function.comp]
    rw [find?_congr_pred _ _ (fun x => x.id == tt) (by
      intro x _
      by_cases hxf : x.id = tf
      · simp [hxf, hne]
      · by_cases hxt : x.id = tt
        · simp [hxf, hxt, Ne.symm hne]
        · simp [hxf, hxt])]
    rw [ht]
    simp [htid, Ne.symm hne, jsOrQ_zero]

/-- Witness instantiating `C8_transfer_preserves_sum` on accounts of different
currencies. -/
theorem C8_witness :
    (("b1" : String) ≠ "" ∧ ("b2" : String) ≠ "" ∧ (25 : ℚ) ≠ 0 ∧
      ("b1" : String) ≠ "b2" ∧ c8Acc1.currency ≠ c8Acc2.currency ∧
      c8State.accounts.find? (fun x => x.id == "b1") = some c8Acc1 ∧
      c8State.accounts.find? (fun x => x.id == "b2") = some c8Acc2) ∧
    ((quickTransfer c8State "b1" "b2" (some 25) c8Today).accounts.find?
        (fun x => x.id == "b1") = some { c8Acc1 with balance := c8Acc1.balance - 25 } ∧
      (quickTransfer c8State "b1" "b2" (some 25) c8Today).accounts.find?
        (fun x => x.id == "b2") = some { c8Acc2 with balance := c8Acc2.balance + 25 } ∧
      (c8Acc1.balance - 25) + (c8Acc2.balance + 25) = c8Acc1.balance + c8Acc2.balance) :=
  ⟨⟨by decide, by decide, by norm_num, by decide, by decide, by rfl, by rfl⟩,
    C8_transfer_preserves_sum c8State "b1" "b2" 25 c8Today c8Acc1 c8Acc2
      (by decide) (by decide) (by norm_num) (by decide) (by rfl) (by rfl)⟩

/-- Claim C3: marking a pending recurring payment as paid with a chosen
existing account — with any raised confirmation accepted — deducts the payment
amount (`actual_amount` when recorded, otherwise the template's budgeted
amount) from that account's balance, inserts a dated snapshot at the new
balance, inserts an expense row for the same amount, and sets the payment's
`is_paid` flag and `account_id`. -/
theorem C3_markPaid_effect (st : RecurringState) (payment : RecurringPayment)
    (recurring : Recurring) (accountId : String)
    (confirmCurrency confirmBalance : Bool) (today : Date) (acc : Account)
    (hacc : st.accounts.find? (fun x => x.id == accountId) = some acc)
    (hcur : acc.currency = recurring.currency ∨ confirmCurrency = true)
    (hbal : payment.actual_amount.getD recurring.amount ≤ jsOrQ acc.balance 0 ∨
      confirmBalance = true) :
    markPaid st payment recurring accountId confirmCurrency confirmBalance today =
      { accounts := st.accounts.map fun x =>
          if x.id == acc.id then
            { x with balance :=
                jsOrQ acc.balance 0 - payment.actual_amount.getD recurring.amount }
          else x,
        snapshots := st.snapshots ++
          [⟨acc.id, jsOrQ acc.balance 0 - payment.actual_amount.getD recurring.amount,
            today⟩],
        expenses := st.expenses ++
          [⟨"Recurring: " ++ recurring.name, none,
            payment.actual_amount.getD recurring.amount, payment.date,
            some acc.id, "Recurring"⟩],
        payments := st.payments.map fun p =>
          if p.id == payment.id then
            { p with is_paid := true, account_id := some acc.id }
          else p } := by
  unfold markPaid
  rw [hacc]
  dsimp only
  rw [if_neg, if_neg]
  · rcases hbal with h | h
    · intro hc
      exact absurd hc.1 (not_lt.mpr h)
    · intro hc
      simp [h] at hc
  · rcases hcur with h | h
    · intro hc
      exact hc.1 h
    · intro hc
      simp [h] at hc

/-- Witness instantiating `C3_markPaid_effect` on a concrete state: the
recorded actual amount 60 (not the budgeted 50) is deducted, snapshotted,
expensed, and the payment is flagged paid with the chosen account. -/
theorem C3_witness :
    (c3State.accounts.find? (fun x => x.id == "acc1") = some c3Acc ∧
      c3Acc.currency = c3Recurring.currency ∧
      c3Payment.actual_amount.getD c3Recurring.amount ≤ jsOrQ c3Acc.balance 0) ∧
    markPaid c3State c3Payment c3Recurring "acc1" false false c3Today =
      { accounts := c3State.accounts.map fun x =>
          if x.id == c3Acc.id then
            { x with balance :=
                jsOrQ c3Acc.balance 0 - c3Payment.actual_amount.getD c3Recurring.amount }
          else x,
        snapshots := c3State.snapshots ++
          [⟨c3Acc.id,
            jsOrQ c3Acc.balance 0 - c3Payment.actual_amount.getD c3Recurring.amount,
            c3Today⟩],
        expenses := c3State.expenses ++
          [⟨"Recurring: " ++ c3Recurring.name, none,
            c3Payment.actual_amount.getD c3Recurring.amount, c3Payment.date,
            some c3Acc.id, "Recurring"⟩],
        payments := c3State.payments.map fun p =>
          if p.id == c3Payment.id then
            { p with is_paid := true, account_id := some c3Acc.id }
          else p } :=
  ⟨⟨by rfl, by rfl, by norm_num [c3Payment, c3Recurring, c3Acc, jsOrQ]⟩,
    C3_markPaid_effect c3State c3Payment c3Recurring "acc1" false false c3Today c3Acc
      (by rfl) (Or.inl (by rfl))
      (Or.inl (by norm_num [c3Payment, c3Recurring, c3Acc, jsOrQ]))⟩

/-- Claim C5, as stated, is false: creating the Monthly template `c5Input`
from an empty state leaves `recurring_payments` empty, although 2025-06-05 is
a calendar occurrence of the template in the displayed month (June 2025, 30
days), so no `RecurringPayment` instance with that date exists and the
`RecurringPage` month view built from `recurring_payments` shows nothing. -/
theorem C5_counterexample :
    (addRecurring ⟨[], []⟩ c5Input "r9" c5Today).payments = [] ∧
    legacyOccursOnDay (mkRecurringTemplate c5Input "r9" c5Today) 2025 6 5 30 = true ∧
    baseRows (addRecurring ⟨[], []⟩ c5Input "r9" c5Today).payments
      (addRecurring ⟨[], []⟩ c5Input "r9" c5Today).recurrings
      ⟨2025, 6, 1⟩ ⟨2025, 6, 30⟩ = [] := by
  refine ⟨rfl, ?_, rfl⟩
  decide

/-- Claim C5 (amended): creating a Recurring template inserts exactly the
template row into `recurrings` and materialises no `RecurringPayment` rows:
the `recurring_payments` table is unchanged, so the month view only ever shows
instances that already existed (the legacy calendar instead computes
occurrences from the templates in memory, without persisting them). -/
theorem C5_addRecurring_materialises_nothing (st : RecurringPageState)
    (inp : RecurringInput) (newId : String) (today : Date) :
    (addRecurring st inp newId today).recurrings =
      st.recurrings ++ [mkRecurringTemplate inp newId today] ∧
    (addRecurring st inp newId today).payments = st.payments :=
  ⟨rfl, rfl⟩

/-- Claim C9: the rollover contribution is always zero, so toggling an item's
`rollover_enabled` flag changes none of the computed planned total, remaining,
percentage or status — the whole derived budget row is identical. -/
theorem C9_rollover_flag_irrelevant (expenses : List BudgetExpense)
    (accounts : List Account) (bi : BudgetItem) :
    rolloverForItem bi = 0 ∧
    budgetRowFor expenses accounts { bi with rollover_enabled := true } =
      budgetRowFor expenses accounts { bi with rollover_enabled := false } := by
  constructor
  · unfold rolloverForItem
    split <;> rfl
  · rfl

/-- Claim C7: an add-expense attempt with an empty or non-numeric amount, or
with no category selected, inserts no row and its only effect is setting the
error message; and when the backend insert fails, no success state is recorded
(amount, description and category are untouched, no row is appended) and only
the error message is displayed. -/
theorem C7_addExpense_error_paths (st : AddExpenseState) (userId : String)
    (categories : List Category) (today : Date) (insertError : Option String) :
    ((st.form.amount = .empty ∨ st.form.amount = .notNum) →
      handleAddExpense st userId categories today insertError =
        { st with form := { st.form with message := "❌ Please enter a valid amount." } }) ∧
    ((∀ q : ℚ, st.form.amount = .num q → st.form.categoryId = "") →
      (st.form.amount = .empty ∨ st.form.amount = .notNum ∨
        handleAddExpense st userId categories today insertError =
          { st with form := { st.form with message := "❌ Please select a category." } })) ∧
    (∀ q : ℚ, ∀ e : String, st.form.amount = .num q → st.form.categoryId ≠ "" →
      insertError = some e →
      handleAddExpense st userId categories today insertError =
        { st with form := { st.form with message := "❌ " ++ e } }) := by
  refine ⟨?_, ?_, ?_⟩
  · rintro (h | h) <;> simp [handleAddExpense, h]
  · intro h
    cases ha : st.form.amount with
    | empty => exact Or.inl rfl
    | notNum => exact Or.inr (Or.inl rfl)
    | num q =>
      refine Or.inr (Or.inr ?_)
      simp [handleAddExpense, ha, h q ha]
  · intro q e ha hc he
    simp [handleAddExpense, ha, hc, he]

/-- Witness instantiating `C7_addExpense_error_paths` on all three error
paths: empty amount, missing category, and a backend insert error. -/
theorem C7_witness :
    (handleAddExpense c7StEmpty "u1" [] c7Today none =
      { c7StEmpty with form :=
          { c7StEmpty.form with message := "❌ Please enter a valid amount." } }) ∧
    (c7StNoCat.form.amount = .empty ∨ c7StNoCat.form.amount = .notNum ∨
      handleAddExpense c7StNoCat "u1" [] c7Today none =
        { c7StNoCat with form :=
            { c7StNoCat.form with message := "❌ Please select a category." } }) ∧
    (handleAddExpense c7StErr "u1" [] c7Today (some "row violates policy") =
      { c7StErr with form :=
          { c7StErr.form with message := "❌ row violates policy" } }) :=
  ⟨(C7_addExpense_error_paths c7StEmpty "u1" [] c7Today none).1 (Or.inl rfl),
    (C7_addExpense_error_paths c7StNoCat "u1" [] c7Today none).2.1
      (fun _ _ => rfl),
    (C7_addExpense_error_paths c7StErr "u1" [] c7Today (some "row violates policy")).2.2
      12 "row violates policy" rfl (by decide) rfl⟩

/-- Converting a zero amount yields zero in every currency pair. -/
theorem toBase_zero (bc : String) (fx : ℚ) (cur : String) : toBase bc fx 0 cur = 0 := by
  unfold toBase
  split
  · rfl
  · split
    · exact zero_div fx
    · split
      · exact zero_mul fx
      · rfl

/-- Behaviour of `Math.abs` on a nonnegative rational. -/
theorem jsAbs_of_nonneg {q : ℚ} (h : 0 ≤ q) : jsAbs q = q := by
  unfold jsAbs; rw [if_neg (not_lt.mpr h)]

/-- Behaviour of `Math.abs` on a negative rational. -/
theorem jsAbs_of_neg {q : ℚ} (h : q < 0) : jsAbs q = -q := by
  unfold jsAbs; rw [if_pos h]

/-- Characterisation of the snapshot-pair fold: at any period the map gains
exactly the nonnegative-delta sum on the inflow and the negative-delta sum on
the outflow, and stays absent where it was absent. -/
theorem snapFold_apply (bc : String) (fx : ℚ) (cur : String) (grp : GroupBy)
    (pairs : List (AccountBalance × AccountBalance)) (m : Period → Option FlowCell)
    (p : Period) :
    (pairs.foldl (snapStep bc fx cur grp) m) p =
      (m p).map fun fl =>
        ⟨fl.inflow + snapPairPosSum bc fx cur grp p pairs,
         fl.outflow + snapPairNegSum bc fx cur grp p pairs⟩ := by
  induction pairs generalizing m with
  | nil =>
    cases hmp : m p <;> simp [snapPairPosSum, snapPairNegSum, hmp]
  | cons pr rest ih =>
    rw [List.foldl_cons, ih]
    by_cases hk : fmtPeriod grp pr.2.recorded_at = p
    · rcases le_or_lt 0 (pr.2.balance - pr.1.balance) with hd | hd
      · have hd2 : pr.1.balance ≤ pr.2.balance := sub_nonneg.mp hd
        have hfil : snapPairPosSum bc fx cur grp p (pr :: rest) =
            toBase bc fx (jsAbs (pr.2.balance - pr.1.balance)) cur +
              snapPairPosSum bc fx cur grp p rest := by
          simp [snapPairPosSum, List.filter_cons, hk, pairDelta, hd, hd2]
        have hfil2 : snapPairNegSum bc fx cur grp p (pr :: rest) =
            snapPairNegSum bc fx cur grp p rest := by
          simp [snapPairNegSum, List.filter_cons, hk, pairDelta, not_lt.mpr hd2]
        rw [hfil, hfil2]
        unfold snapStep
        cases hmk : m (fmtPeriod grp pr.2.recorded_at) with
        | none =>
          rw [hk] at hmk
          simp [hmk]
        | some fl =>
          rw [hk] at hmk
          simp only [hk, hmk]
          rw [if_pos hd]
          simp [hmk, add_assoc]
      · have hd2 : pr.2.balance < pr.1.balance := sub_neg.mp hd
        have hfil : snapPairPosSum bc fx cur grp p (pr :: rest) =
            snapPairPosSum bc fx cur grp p rest := by
          simp [snapPairPosSum, List.filter_cons, hk, pairDelta, not_le.mpr hd2]
        have hfil2 : snapPairNegSum bc fx cur grp p (pr :: rest) =
            toBase bc fx (jsAbs (pr.2.balance - pr.1.balance)) cur +
              snapPairNegSum bc fx cur grp p rest := by
          simp [snapPairNegSum, List.filter_cons, hk, pairDelta, hd, hd2]
        rw [hfil, hfil2]
        unfold snapStep
        cases hmk : m (fmtPeriod grp pr.2.recorded_at) with
        | none =>
          rw [hk] at hmk
          simp [hmk]
        | some fl =>
          rw [hk] at hmk
          simp only [hk, hmk]
          rw [if_neg (not_le.mpr hd)]
          simp [hmk, add_assoc]
    · have hfil : snapPairPosSum bc fx cur grp p (pr :: rest) =
          snapPairPosSum bc fx cur grp p rest := by
        simp [snapPairPosSum, List.filter_cons, hk]
      have hfil2 : snapPairNegSum bc fx cur grp p (pr :: rest) =
          snapPairNegSum bc fx cur grp p rest := by
        simp [snapPairNegSum, List.filter_cons, hk]
      rw [hfil, hfil2]
      unfold snapStep
      cases hmk : m (fmtPeriod grp pr.2.recorded_at) with
      | none => rfl
      | some fl =>
        simp only [hmk]
        split <;> simp [Ne.symm hk]

/-- Characterisation of the per-account fold of `flowMapSnap`. -/
theorem accountsFold_apply (bc : String) (fx : ℚ) (accounts : List Account)
    (grp : GroupBy) (inRange : List AccountBalance) (gids : List String)
    (m : Period → Option FlowCell) (p : Period) :
    (gids.foldl
        (fun m gid =>
          let arr := accountGroup inRange gid
          let cur := groupCurrency accounts bc arr
          (arr.zip arr.tail).foldl (snapStep bc fx cur grp) m)
        m) p =
      (m p).map fun fl =>
        ⟨fl.inflow + (gids.map fun gid =>
            snapPairPosSum bc fx (groupCurrency accounts bc (accountGroup inRange gid))
              grp p ((accountGroup inRange gid).zip (accountGroup inRange gid).tail)).sum,
         fl.outflow + (gids.map fun gid =>
            snapPairNegSum bc fx (groupCurrency accounts bc (accountGroup inRange gid))
              grp p ((accountGroup inRange gid).zip (accountGroup inRange gid).tail)).sum⟩ := by
  induction gids generalizing m with
  | nil => cases hmp : m p <;> simp [hmp]
  | cons g rest ih =>
    rw [List.foldl_cons, ih]
    rw [snapFold_apply]
    cases hmp : m p with
    | none => simp
    | some fl => simp [add_assoc]

/-- Sums over two filters agree when the stricter filter drops only terms the
mapped function sends to zero and the functions agree on the kept terms. -/
theorem sum_filter_weaken {α : Type} (l : List α) (f g : α → ℚ) (q1 q2 : α → Bool)
    (h1 : ∀ x, q2 x = true → q1 x = true)
    (h2 : ∀ x, q1 x = true → q2 x = false → f x = 0)
    (h3 : ∀ x, q2 x = true → f x = g x) :
    ((l.filter q1).map f).sum = ((l.filter q2).map g).sum := by
  induction l with
  | nil => rfl
  | cons x xs ih =>
    rw [List.filter_cons, List.filter_cons]
    cases hq2 : q2 x with
    | true => simp [h1 x hq2, hq2, ih, h3 x hq2]
    | false =>
      cases hq1 : q1 x with
      | true => simp [hq1, hq2, ih, h2 x hq1 hq2]
      | false => simp [hq1, hq2, ih]

/-- Mapped sums over a filter agree when the functions agree on the filter. -/
theorem sum_map_congr_filter {α : Type} (l : List α) (q : α → Bool) (f g : α → ℚ)
    (h : ∀ x, q x = true → f x = g x) :
    ((l.filter q).map f).sum = ((l.filter q).map g).sum := by
  induction l with
  | nil => rfl
  | cons x xs ih =>
    rw [List.filter_cons]
    cases hq : q x with
    | true => simp [hq, ih, h x hq]
    | false => simp [hq, ih]

/-- The inflow sum equals the claim formula: the converted deltas of the pairs
with strictly positive delta (a zero delta contributes zero). -/
theorem posSum_ge_eq_gt (bc : String) (fx : ℚ) (cur : String) (grp : GroupBy)
    (p : Period) (pairs : List (AccountBalance × AccountBalance)) :
    snapPairPosSum bc fx cur grp p pairs =
      ((pairs.filter fun pr =>
          fmtPeriod grp pr.2.recorded_at == p && decide (0 < pairDelta pr)).map
        fun pr => toBase bc fx (pairDelta pr) cur).sum := by
  unfold snapPairPosSum
  apply sum_filter_weaken
  · intro x hx
    rw [Bool.and_eq_true] at hx
    obtain ⟨hfmt, hlt⟩ := hx
    rw [Bool.and_eq_true, hfmt]
    exact ⟨rfl, decide_eq_true (le_of_lt (of_decide_eq_true hlt))⟩
  · intro x hx1 hx2
    rw [Bool.and_eq_true] at hx1
    obtain ⟨hfmt, hle⟩ := hx1
    rw [hfmt, Bool.true_and] at hx2
    have hz : pairDelta x = 0 :=
      le_antisymm (not_lt.mp (of_decide_eq_false hx2)) (of_decide_eq_true hle)
    rw [hz, jsAbs_of_nonneg le_rfl, toBase_zero]
  · intro x hx
    rw [Bool.and_eq_true] at hx
    rw [jsAbs_of_nonneg (le_of_lt (of_decide_eq_true hx.2))]

/-- The outflow sum equals the claim formula: the converted absolute values of
the strictly negative deltas. -/
theorem negSum_eq_spec (bc : String) (fx : ℚ) (cur : String) (grp : GroupBy)
    (p : Period) (pairs : List (AccountBalance × AccountBalance)) :
    snapPairNegSum bc fx cur grp p pairs =
      ((pairs.filter fun pr =>
          fmtPeriod grp pr.2.recorded_at == p && decide (pairDelta pr < 0)).map
        fun pr => toBase bc fx (-(pairDelta pr)) cur).sum := by
  unfold snapPairNegSum
  apply sum_map_congr_filter
  intro x hx
  rw [Bool.and_eq_true] at hx
  rw [jsAbs_of_neg (of_decide_eq_true hx.2)]

/-- Membership under sorted insertion. -/
theorem mem_insertBy {α : Type} (le : α → α → Bool) (x a : α) (l : List α) :
    a ∈ insertBy le x l ↔ a = x ∨ a ∈ l := by
  induction l with
  | nil => simp [insertBy]
  | cons y ys ih =>
    unfold insertBy
    split
    · simp
    · simp [ih]
      tauto

/-- Sorting with `sortBy` preserves membership. -/
theorem mem_sortBy {α : Type} (le : α → α → Bool) (a : α) (l : List α) :
    a ∈ sortBy le l ↔ a ∈ l := by
  induction l with
  | nil => simp [sortBy]
  | cons y ys ih =>
    unfold sortBy
    rw [mem_insertBy, ih]
    simp

/-- At every initialised period the snapshot flow map holds exactly the
claimed inflow/outflow sums. -/
theorem flowMapSnap_apply (snaps : List AccountBalance) (accounts : List Account)
    (bc : String) (fx : ℚ) (grp : GroupBy) (start ed : Date) (p : Period)
    (hp : p ∈ periodKeys grp start ed) :
    flowMapSnap snaps accounts bc fx grp start ed p =
      some ⟨specSnapInflowAt snaps accounts bc fx grp start ed p,
        specSnapOutflowAt snaps accounts bc fx grp start ed p⟩ := by
  unfold flowMapSnap
  rw [accountsFold_apply]
  rw [show initFlowMap (periodKeys grp start ed) p = some ⟨0, 0⟩ from by
    simp [initFlowMap, hp]]
  unfold specSnapInflowAt specSnapOutflowAt
  simp only [Option.map_some', zero_add, Option.some.injEq, FlowCell.mk.injEq]
  constructor
  · exact congrArg List.sum (List.map_congr_left fun gid _ =>
      posSum_ge_eq_gt bc fx _ grp p _)
  · exact congrArg List.sum (List.map_congr_left fun gid _ =>
      negSum_eq_spec bc fx _ grp p _)

/-- Claim C6: when no income rows exist, the rendered cash flow is the
snapshot-inferred series, in which every period row carries as inflow the sum
over accounts of the positive consecutive-snapshot deltas landing in that
period (converted to the base currency), as outflow the absolute values of
the negative deltas, and a net equal to inflow minus outflow; when at least
one income row exists, the rendered cash flow is the transaction-based series
instead. -/
theorem C6_cashflow_inference (incomes : List Income) (expenses : List CashExpense)
    (snaps : List AccountBalance) (accounts : List Account)
    (selectedAccounts : List String) (baseCurrency : String) (fxRate : ℚ)
    (grp : GroupBy) (start ed : Date) :
    (incomes = [] →
      cashflowFlow incomes expenses snaps accounts selectedAccounts baseCurrency
          fxRate grp start ed =
        flowByPeriodSnap snaps accounts baseCurrency fxRate grp start ed ∧
      ∀ row ∈ flowByPeriodSnap snaps accounts baseCurrency fxRate grp start ed,
        row.inflow =
          specSnapInflowAt snaps accounts baseCurrency fxRate grp start ed row.period ∧
        row.outflow =
          specSnapOutflowAt snaps accounts baseCurrency fxRate grp start ed row.period ∧
        row.net = row.inflow - row.outflow) ∧
    (incomes ≠ [] →
      cashflowFlow incomes expenses snaps accounts selectedAccounts baseCurrency
          fxRate grp start ed =
        flowByPeriodTxn incomes expenses accounts selectedAccounts baseCurrency
          fxRate grp start ed) := by
  constructor
  · intro h
    subst h
    constructor
    · simp [cashflowFlow]
    · intro row hrow
      unfold flowByPeriodSnap at hrow
      rw [List.mem_map] at hrow
      obtain ⟨p, hp, hrow⟩ := hrow
      rw [mem_sortBy] at hp
      rw [flowMapSnap_apply snaps accounts baseCurrency fxRate grp start ed p hp] at hrow
      subst hrow
      exact ⟨rfl, rfl, rfl⟩
  · intro h
    have hl : 0 < incomes.length := List.length_pos.mpr h
    simp [cashflowFlow, hl]

/-- Witness instantiating `C6_cashflow_inference` on a concrete snapshot
history, both with an empty and with a non-empty income list. -/
theorem C6_witness :
    (cashflowFlow [] [] c6Snaps c6Accounts [] "USD" 500 GroupBy.day c6Start c6End =
      flowByPeriodSnap c6Snaps c6Accounts "USD" 500 GroupBy.day c6Start c6End) ∧
    (cashflowFlow [c6Income] [] c6Snaps c6Accounts [] "USD" 500 GroupBy.day c6Start c6End =
      flowByPeriodTxn [c6Income] [] c6Accounts [] "USD" 500 GroupBy.day c6Start c6End) :=
  ⟨((C6_cashflow_inference [] [] c6Snaps c6Accounts [] "USD" 500 GroupBy.day
      c6Start c6End).1 rfl).1,
    (C6_cashflow_inference [c6Income] [] c6Snaps c6Accounts [] "USD" 500 GroupBy.day
      c6Start c6End).2 (by simp)⟩
